import Mathlib

/-!
Verification development for the NewsLetterPlatform repository.

The Python source is shallowly embedded: database tables become lists of
structures, SQLAlchemy queries become list functions, `datetime` values
become natural numbers counting UTC seconds, and functions that may raise
become `Except`-valued functions.  Randomness (verification codes,
unsubscribe tokens) and external I/O (SMTP, upstream APIs) are modelled by
explicit oracle parameters, so every definition is executable.
-/

namespace NewsLetter

/-- Settings relevant to email verification (src/config.py, `Settings`).
Field values below are the `Field(default=...)` defaults of the source. -/
structure Settings where
  verification_code_length : Nat
  verification_expiry_minutes : Nat
  max_verification_attempts : Nat
deriving Repr, DecidableEq

/-- Default settings: `verification_code_length=6`, `verification_expiry_minutes=10`,
`max_verification_attempts=5` (src/config.py). -/
def defaultSettings : Settings := ⟨6, 10, 5⟩

/-! ## retry_async (src/src/common/utils.py)

`retry_async(coro_func, max_retries=3, base_delay=2.0)` loops
`for attempt in range(max_retries)`: it awaits `coro_func()`; on success it
returns the value; on exception it re-raises if `attempt == max_retries - 1`
and otherwise sleeps `base_delay * 2 ** attempt` seconds and continues.
The embedding feeds the outcome of the k-th invocation through the oracle
`outcomes : Nat → Except E A` and records the number of calls made and the
sleeps performed. -/

structure RetryTrace (E A : Type) where
  result : Except E A
  calls : Nat
  delays : List ℚ
deriving Repr

/-- Loop body of `retry_async`, recursing on the number of remaining
attempts; `k` is the current 0-based attempt index. -/
def retryFrom {E A : Type} (outcomes : Nat → Except E A) (base_delay : ℚ)
    (k : Nat) : Nat → RetryTrace E A
  | 0 => ⟨outcomes k, 0, []⟩
  | 1 => ⟨outcomes k, 1, []⟩
  | n + 2 =>
    match outcomes k with
    | .ok v => ⟨.ok v, 1, []⟩
    | .error _ =>
      let t := retryFrom outcomes base_delay (k + 1) (n + 1)
      ⟨t.result, t.calls + 1, base_delay * 2 ^ k :: t.delays⟩

/-- Embedding of `retry_async` (src/src/common/utils.py).  The source calls
it with the defaults `max_retries = 3`, `base_delay = 2.0`. -/
def retry_async {E A : Type} (outcomes : Nat → Except E A)
    (max_retries : Nat) (base_delay : ℚ) : RetryTrace E A :=
  retryFrom outcomes base_delay 0 max_retries

/-- C4: retry_async invokes the coroutine factory at most 3 times; every
non-final call failed; the returned result is the outcome of the last call
made; it stops before the 3rd call only on success (so the first success is
returned without further calls, and if all 3 attempts fail the last
exception is re-raised); and after a failure on attempt k it waits
`base_delay * 2 ^ k` seconds, so the recorded delays are exactly
`base_delay * 2 ^ k` for `k < calls - 1`. -/
theorem retry_async_spec {E A : Type} (outcomes : Nat → Except E A) (b : ℚ) :
    1 ≤ (retry_async outcomes 3 b).calls ∧
    (retry_async outcomes 3 b).calls ≤ 3 ∧
    (∀ j, j + 1 < (retry_async outcomes 3 b).calls → ∃ e, outcomes j = .error e) ∧
    (retry_async outcomes 3 b).result = outcomes ((retry_async outcomes 3 b).calls - 1) ∧
    ((retry_async outcomes 3 b).calls < 3 → ∃ v, (retry_async outcomes 3 b).result = .ok v) ∧
    (retry_async outcomes 3 b).delays =
      (List.range ((retry_async outcomes 3 b).calls - 1)).map (fun k => b * 2 ^ k) := by
  rcases h0 : outcomes 0 with e0 | v0 <;> rcases h1 : outcomes 1 with e1 | v1 <;>
    rcases h2 : outcomes 2 with e2 | v2 <;>
    refine ⟨?_, ?_, ?_, ?_, ?_, ?_⟩ <;>
    first
      | (simp_all [retry_async, retryFrom, List.range_succ]
         done)
      | (intro j hj
         simp_all [retry_async, retryFrom]
         have hb : j = 0 ∨ j = 1 := by omega
         rcases hb with rfl | rfl <;> simp_all)

/-- Witness for C4 at a concrete oracle: the first call fails, the second
succeeds; retry_async makes 2 calls, sleeps `2 * 2 ^ 0 = 2` seconds once,
and returns the success. -/
theorem retry_async_spec_witness :
    1 ≤ (retry_async (fun k => if k = 0 then (.error "boom") else (.ok 42)) 3 2).calls ∧
    (retry_async (fun k => if k = 0 then (.error "boom") else (.ok 42)) 3 2).calls ≤ 3 ∧
    (∀ j, j + 1 < (retry_async (fun k => if k = 0 then (.error "boom") else (.ok 42)) 3 2).calls →
      ∃ e, (if j = 0 then (Except.error "boom") else (Except.ok 42)) = .error e) ∧
    (retry_async (fun k => if k = 0 then (.error "boom") else (.ok 42)) 3 2).result =
      (if ((retry_async (fun k => if k = 0 then (.error "boom") else (.ok 42)) 3 2).calls - 1) = 0
        then (Except.error "boom") else (Except.ok 42)) ∧
    ((retry_async (fun k => if k = 0 then (.error "boom") else (.ok 42)) 3 2).calls < 3 →
      ∃ v, (retry_async (fun k => if k = 0 then (.error "boom") else (.ok 42)) 3 2).result = .ok v) ∧
    (retry_async (fun k => if k = 0 then (.error "boom") else (.ok 42)) 3 2).delays =
      (List.range ((retry_async (fun k => if k = 0 then (.error "boom") else (.ok 42)) 3 2).calls - 1)).map
        (fun k => 2 * 2 ^ k) :=
  retry_async_spec (fun k => if k = 0 then (.error "boom") else (.ok 42)) 2

/-! ## GmailSender (src/src/common/delivery/gmail_sender.py)

`send_batch_efficient(messages)` returns all-failed results when the sender
is not configured, `[]` for the empty list, all-failed results when the
initial SMTP connection fails, and otherwise one `SendResult` per message in
order, where a message hitting `SMTPServerDisconnected` is retried once
after a reconnect (a failure of that retry yields a failed result).  The
SMTP server's behaviour is an oracle indexed by the message position. -/

structure Msg where
  recipient : String
  subject : String
  html_content : String
  sender_name : String
deriving Repr, DecidableEq

structure SendResult where
  recipient : String
  success : Bool
  error_message : Option String
deriving Repr, DecidableEq

/-- Outcome of one `_send_single` call: either a returned `SendResult`
(success flag and error message; the recipient is always the message's
recipient) or an `smtplib.SMTPServerDisconnected` exception. -/
inductive SingleOutcome where
  | res (success : Bool) (error_message : Option String)
  | disconnected
deriving Repr, DecidableEq

/-- Oracle for one `send_batch_efficient` call: whether the initial
`_connect` succeeds, the outcome of the first `_send_single` for the i-th
message, and — when that raised `SMTPServerDisconnected` — the outcome of
the reconnect-and-resend (`none` models an exception in the reconnect
branch). -/
structure SmtpOracle where
  connectOk : Bool
  firstTry : Nat → SingleOutcome
  retryAfterReconnect : Nat → Option (Bool × Option String)

/-- Result for the i-th message inside the batch loop, covering the
`SMTPServerDisconnected` reconnect branch of the source. -/
def sendSingleResult (o : SmtpOracle) (i : Nat) (m : Msg) : SendResult :=
  match o.firstTry i with
  | .res s e => ⟨m.recipient, s, e⟩
  | .disconnected =>
    match o.retryAfterReconnect i with
    | some (s, e) => ⟨m.recipient, s, e⟩
    | none => ⟨m.recipient, false, some "재연결 후 발송 실패"⟩

/-- Batch loop of `send_batch_efficient`: one result per message, in order,
with `i` the running message index fed to the oracle. -/
def sendLoop (o : SmtpOracle) : Nat → List Msg → List SendResult
  | _, [] => []
  | i, m :: ms => sendSingleResult o i m :: sendLoop o (i + 1) ms

/-- Embedding of `GmailSender.send_batch_efficient`
(src/src/common/delivery/gmail_sender.py).  Throttling sleeps between
sub-batches do not affect the returned results and are not recorded. -/
def send_batch_efficient (configured : Bool) (o : SmtpOracle)
    (messages : List Msg) : List SendResult :=
  if configured = false then
    messages.map (fun m => ⟨m.recipient, false, some "Gmail 설정이 완료되지 않았습니다."⟩)
  else if messages.isEmpty then []
  else if o.connectOk = false then
    messages.map (fun m => ⟨m.recipient, false, some "SMTP 연결 실패"⟩)
  else
    sendLoop o 0 messages

theorem sendLoop_length (o : SmtpOracle) (ms : List Msg) :
    ∀ i, (sendLoop o i ms).length = ms.length := by
  induction ms with
  | nil => intro i; rfl
  | cons m ms ih => intro i; simp [sendLoop, ih]

theorem sendLoop_recipient (o : SmtpOracle) (ms : List Msg) :
    ∀ (i j : Nat), ((sendLoop o i ms)[j]?).map SendResult.recipient =
      (ms[j]?).map Msg.recipient := by
  induction ms with
  | nil => intro i j; rfl
  | cons m ms ih =>
    intro i j
    cases j with
    | zero => simp [sendLoop, sendSingleResult]
      <;> rcases o.firstTry i with ⟨s, e⟩ | _ <;> simp
      <;> rcases o.retryAfterReconnect i with _ | ⟨s, e⟩ <;> simp
    | succ j => simp [sendLoop, ih]

/-- C10: send_batch_efficient returns exactly one result per message, in the
same order (the i-th result's recipient is the i-th message's recipient);
for the empty message list it returns the empty list; and when the sender is
not configured every returned result has `success = false`. -/
theorem send_batch_efficient_alignment (configured : Bool) (o : SmtpOracle)
    (messages : List Msg) :
    (send_batch_efficient configured o messages).length = messages.length ∧
    (∀ (i : Nat), ((send_batch_efficient configured o messages)[i]?).map SendResult.recipient =
      (messages[i]?).map Msg.recipient) ∧
    (messages = [] → send_batch_efficient configured o messages = []) ∧
    (configured = false →
      ∀ r ∈ send_batch_efficient configured o messages, r.success = false) := by
  refine ⟨?_, ?_, ?_, ?_⟩
  · by_cases hc : configured = false <;>
      by_cases he : messages.isEmpty <;>
      by_cases hk : o.connectOk = false <;>
      simp_all [send_batch_efficient, sendLoop_length]
  · intro i
    by_cases hc : configured = false <;>
      by_cases he : messages.isEmpty <;>
      by_cases hk : o.connectOk = false <;>
      simp_all [send_batch_efficient, sendLoop_recipient, List.getElem?_map] <;>
      (cases hmi : messages[i]? <;> simp [Function.comp])
  · intro h
    subst h
    by_cases hc : configured = false <;> simp_all [send_batch_efficient]
  · intro hc r hr
    simp_all [send_batch_efficient]
    rcases hr with ⟨m, _, rfl⟩
    rfl

/-- Witness for C10 at a concrete input: one message, unconfigured sender. -/
theorem send_batch_efficient_alignment_witness :
    (send_batch_efficient false ⟨true, fun _ => .res true none, fun _ => none⟩
        [⟨"a@x", "s", "h", "n"⟩]).length = [Msg.mk "a@x" "s" "h" "n"].length ∧
    (∀ (i : Nat), ((send_batch_efficient false ⟨true, fun _ => .res true none, fun _ => none⟩
        [⟨"a@x", "s", "h", "n"⟩])[i]?).map SendResult.recipient =
      (([Msg.mk "a@x" "s" "h" "n"] : List Msg)[i]?).map Msg.recipient) ∧
    (([Msg.mk "a@x" "s" "h" "n"] : List Msg) = [] →
      send_batch_efficient false ⟨true, fun _ => .res true none, fun _ => none⟩
        [⟨"a@x", "s", "h", "n"⟩] = []) ∧
    (false = false →
      ∀ r ∈ send_batch_efficient false ⟨true, fun _ => .res true none, fun _ => none⟩
        [⟨"a@x", "s", "h", "n"⟩], r.success = false) :=
  send_batch_efficient_alignment false ⟨true, fun _ => .res true none, fun _ => none⟩
    [⟨"a@x", "s", "h", "n"⟩]

/-! ## List helpers for the ORM embedding

SQLAlchemy mutates the single row object returned by `.first()`; the
embedding expresses that as `updateFirst`, which rewrites the first element
satisfying the query predicate and leaves everything else untouched. -/

/-- Rewrite the first element satisfying `p` with `f`; leave the rest. -/
def updateFirst {α : Type} (p : α → Bool) (f : α → α) : List α → List α
  | [] => []
  | x :: xs => if p x then f x :: xs else x :: updateFirst p f xs

theorem updateFirst_length {α : Type} (p : α → Bool) (f : α → α) (l : List α) :
    (updateFirst p f l).length = l.length := by
  induction l with
  | nil => rfl
  | cons x xs ih => by_cases hx : p x <;> simp [updateFirst, hx, ih]

/-- Decomposition of a successful `.first()` query: the list splits around
the first match, and `updateFirst` rewrites exactly that element. -/
theorem find?_decomp {α : Type} (p : α → Bool) (l : List α) (x : α)
    (h : l.find? p = some x) :
    ∃ l1 l2, l = l1 ++ x :: l2 ∧ (∀ y ∈ l1, p y = false) ∧ p x = true ∧
      ∀ f : α → α, updateFirst p f l = l1 ++ f x :: l2 := by
  induction l with
  | nil => simp [List.find?] at h
  | cons a as ih =>
    by_cases ha : p a
    · refine ⟨[], as, ?_, by simp, ?_, ?_⟩ <;>
        simp_all [List.find?_cons, updateFirst]
    · rw [List.find?_cons_of_neg _ (by simp [ha])] at h
      obtain ⟨l1, l2, hsplit, hnone, hx, hupd⟩ := ih h
      refine ⟨a :: l1, l2, by simp [hsplit], ?_, hx, ?_⟩
      · intro y hy
        rcases List.mem_cons.mp hy with rfl | hy'
        · simpa using ha
        · exact hnone y hy'
      · intro f
        simp [updateFirst, ha, hupd f]

theorem find?_append_first_none {α : Type} (p : α → Bool) (l1 l2 : List α)
    (h : ∀ y ∈ l1, p y = false) : (l1 ++ l2).find? p = l2.find? p := by
  induction l1 with
  | nil => rfl
  | cons a as ih =>
    have ha := h a (by simp)
    simp only [List.cons_append, List.find?_cons, ha]
    exact ih (fun y hy => h y (by simp [hy]))

/-- When `f` preserves a field-selecting map `g`, `updateFirst` preserves
the image of the list under `g`. -/
theorem updateFirst_map {α β : Type} (p : α → Bool) (f : α → α) (g : α → β)
    (hg : ∀ x, g (f x) = g x) (l : List α) :
    (updateFirst p f l).map g = l.map g := by
  induction l with
  | nil => rfl
  | cons x xs ih => by_cases hx : p x <;> simp [updateFirst, hx, ih, hg]

/-- When `f` preserves the membership predicate `q`, `updateFirst` preserves
the number of rows matching `q`. -/
theorem length_filter_updateFirst {α : Type} (p q : α → Bool) (f : α → α)
    (hq : ∀ x, q (f x) = q x) (l : List α) :
    ((updateFirst p f l).filter q).length = (l.filter q).length := by
  induction l with
  | nil => rfl
  | cons x xs ih =>
    by_cases hx : p x
    · by_cases hqx : q x <;> simp [updateFirst, hx, List.filter_cons, hq, hqx]
    · by_cases hqx : q x <;> simp [updateFirst, hx, List.filter_cons, hqx, ih]

/-! ## CollectedDataRepository (src/src/common/database/repository.py)

Rows of the `collected_data` table.  The payload type `D` stands for the
Python dict; `json.dumps` on write and `json.loads` on read are a faithful
round trip for these payloads, so the serialized column `data_json` is
modelled as holding the abstract payload itself. -/

structure CollectedData (D : Type) where
  id : Nat
  tenant_id : String
  data_type : String
  data_json : D
  collected_at : Nat

/-- The WHERE clause `tenant_id == t AND data_type == ty` shared by `upsert`
and `get_latest`. -/
def cdMatches {D : Type} (t ty : String) (r : CollectedData D) : Bool :=
  r.tenant_id == t && r.data_type == ty

/-- Embedding of `CollectedDataRepository.upsert`: overwrite the first
matching row's `data_json` and `collected_at` in place, or insert a fresh
row when none matches. -/
def CollectedDataRepository.upsert {D : Type} (db : List (CollectedData D))
    (t ty : String) (d : D) (now fresh : Nat) : List (CollectedData D) :=
  if (db.find? (cdMatches t ty)).isSome then
    updateFirst (cdMatches t ty)
      (fun r => { r with data_json := d, collected_at := now }) db
  else
    db ++ [⟨fresh, t, ty, d, now⟩]

/-- The `ORDER BY collected_at DESC ... first()` of `get_latest`: among the
matching rows, the first one with maximal `collected_at`. -/
def pickLatest {D : Type} (acc : Option (CollectedData D)) (r : CollectedData D) :
    Option (CollectedData D) :=
  match acc with
  | none => some r
  | some a => if a.collected_at < r.collected_at then some r else some a

/-- Embedding of `CollectedDataRepository.get_latest`. -/
def CollectedDataRepository.get_latest {D : Type} (db : List (CollectedData D))
    (t ty : String) : Option D :=
  ((db.filter (cdMatches t ty)).foldl pickLatest none).map CollectedData.data_json

/-- Invariant targeted by C5: at most one `collected_data` row per
`(tenant_id, data_type)` pair. -/
def atMostOne {D : Type} (db : List (CollectedData D)) (t ty : String) : Prop :=
  (db.filter (cdMatches t ty)).length ≤ 1

theorem foldl_pickLatest_single {D : Type} (r : CollectedData D) :
    List.foldl pickLatest none [r] = some r := rfl

/-- C5: upsert preserves the at-most-one-row-per-(tenant_id, data_type)
invariant; when a matching row already exists it overwrites that row in
place and the table keeps its size (no new row); and `get_latest` for the
same key afterwards returns exactly the upserted payload. -/
theorem upsert_overwrite_latest {D : Type} (db : List (CollectedData D))
    (t ty : String) (d : D) (now fresh : Nat)
    (hinv : ∀ t' ty', atMostOne db t' ty') :
    (∀ t' ty', atMostOne (CollectedDataRepository.upsert db t ty d now fresh) t' ty') ∧
    ((db.find? (cdMatches t ty)).isSome →
      (CollectedDataRepository.upsert db t ty d now fresh).length = db.length) ∧
    CollectedDataRepository.get_latest
      (CollectedDataRepository.upsert db t ty d now fresh) t ty = some d := by
  by_cases hex : (db.find? (cdMatches t ty)).isSome
  · -- a row for (t, ty) already exists: in-place overwrite
    obtain ⟨x, hx⟩ := Option.isSome_iff_exists.mp hex
    obtain ⟨l1, l2, hsplit, hnone, hpx, hupd⟩ := find?_decomp _ _ _ hx
    have hpres : ∀ (t' ty' : String) (r : CollectedData D),
        cdMatches t' ty' { r with data_json := d, collected_at := now } =
          cdMatches t' ty' r := fun _ _ _ => rfl
    have hdb' : CollectedDataRepository.upsert db t ty d now fresh =
        l1 ++ { x with data_json := d, collected_at := now } :: l2 := by
      simp only [CollectedDataRepository.upsert, hex, if_true]
      exact hupd _
    refine ⟨?_, ?_, ?_⟩
    · intro t' ty'
      have := length_filter_updateFirst (cdMatches t ty) (cdMatches t' ty')
        (fun r => { r with data_json := d, collected_at := now })
        (hpres t' ty') db
      simpa [atMostOne, CollectedDataRepository.upsert, hex, this] using hinv t' ty'
    · intro _
      simp [CollectedDataRepository.upsert, hex, updateFirst_length]
    · have hl1 : l1.filter (cdMatches t ty) = [] :=
        List.filter_eq_nil_iff.mpr (fun y hy => by simp [hnone y hy])
      have hl2 : l2.filter (cdMatches t ty) = [] := by
        have hdbf : db.filter (cdMatches t ty) =
            x :: l2.filter (cdMatches t ty) := by
          simp [hsplit, List.filter_append, hl1, List.filter_cons, hpx]
        have hlen := hinv t ty
        rw [atMostOne, hdbf] at hlen
        have h0 : (l2.filter (cdMatches t ty)).length = 0 := by
          simp only [List.length_cons] at hlen
          omega
        exact List.length_eq_zero.mp h0
      have hfilt : (l1 ++ ({ x with data_json := d, collected_at := now } :
            CollectedData D) :: l2).filter (cdMatches t ty) =
          [{ x with data_json := d, collected_at := now }] := by
        simp [List.filter_append, hl1, List.filter_cons, hpres t ty x, hpx, hl2]
      rw [hdb']
      simp only [CollectedDataRepository.get_latest, hfilt, foldl_pickLatest_single]
      rfl
  · -- no matching row: a fresh row is appended
    have hall : ∀ y ∈ db, cdMatches t ty y = false := by
      intro y hy
      have := List.find?_eq_none.mp (Option.not_isSome_iff_eq_none.mp hex) y hy
      simpa using this
    have hdbf : db.filter (cdMatches t ty) = [] :=
      List.filter_eq_nil_iff.mpr (fun y hy => by simp [hall y hy])
    have hdb' : CollectedDataRepository.upsert db t ty d now fresh =
        db ++ [⟨fresh, t, ty, d, now⟩] := by
      simp [CollectedDataRepository.upsert, hex]
    have hnew : cdMatches t ty (⟨fresh, t, ty, d, now⟩ : CollectedData D) = true := by
      simp [cdMatches]
    refine ⟨?_, ?_, ?_⟩
    · intro t' ty'
      by_cases hmt : cdMatches t' ty' (⟨fresh, t, ty, d, now⟩ : CollectedData D)
      · have ht : t = t' ∧ ty = ty' := by
          simpa [cdMatches] using hmt
        obtain ⟨rfl, rfl⟩ := ht
        simp [atMostOne, hdb', List.filter_append, hdbf, List.filter_cons, hnew]
      · simpa [atMostOne, hdb', List.filter_append, List.filter_cons, hmt]
          using hinv t' ty'
    · intro h
      rw [h] at hex
      simp at hex
    · have hfilt : (db ++ [(⟨fresh, t, ty, d, now⟩ : CollectedData D)]).filter
          (cdMatches t ty) = [⟨fresh, t, ty, d, now⟩] := by
        simp [List.filter_append, hdbf, List.filter_cons, hnew]
      rw [hdb']
      simp only [CollectedDataRepository.get_latest, hfilt, foldl_pickLatest_single]
      rfl

/-- Witness for C5 at a concrete table: one existing row for
`("edufit", "news")` gets overwritten by payload `9`. -/
theorem upsert_overwrite_latest_witness :
    (∀ t' ty', atMostOne
      (CollectedDataRepository.upsert [⟨0, "edufit", "news", 7, 3⟩] "edufit" "news" 9 50 1) t' ty') ∧
    ((([⟨0, "edufit", "news", (7 : Nat), 3⟩] : List (CollectedData Nat)).find?
        (cdMatches "edufit" "news")).isSome →
      (CollectedDataRepository.upsert [⟨0, "edufit", "news", 7, 3⟩] "edufit" "news" 9 50 1).length =
        ([⟨0, "edufit", "news", (7 : Nat), 3⟩] : List (CollectedData Nat)).length) ∧
    CollectedDataRepository.get_latest
      (CollectedDataRepository.upsert [⟨0, "edufit", "news", 7, 3⟩] "edufit" "news" 9 50 1)
      "edufit" "news" = some 9 :=
  upsert_overwrite_latest [⟨0, "edufit", "news", 7, 3⟩] "edufit" "news" 9 50 1
    (by intro t' ty'; simp [atMostOne, List.filter]; split <;> simp)

/-! ## run_collect_job (src/src/common/scheduler/jobs.py)

The daily collect job runs the tenant's `collect_data()` and writes each
collected `(data_type, data)` pair into `collected_data` (plus the history
table, out of scope here) inside one session; the whole body sits in a
`try/except Exception` that only logs, so neither a collection error nor a
database write error ever escapes.  `get_session` rolls the transaction back
on an exception, so a failed write leaves the cache unchanged.  Collection
is modelled by its outcome `collected`; a write failure by `writeFails`. -/

/-- The `try:` body of `run_collect_job` for a daily run: everything that
can raise.  `.error` is an exception escaping the body. -/
def collectBody {D : Type} (collected : Except String (List (String × D)))
    (writeFails : Bool) (cache : List (CollectedData D)) (now : Nat)
    (tenant : String) : Except String (List (CollectedData D)) :=
  match collected with
  | .error e => .error e
  | .ok items =>
    if items.isEmpty then .ok cache
    else if writeFails then .error "database write failed"
    else .ok (items.foldl
      (fun dbacc p => CollectedDataRepository.upsert dbacc tenant p.1 p.2 now dbacc.length)
      cache)

/-- Embedding of `run_collect_job` (daily), returning the exception that
escapes the function (first component) and the resulting cache table. -/
def run_collect_job {D : Type} (tenantFound : Bool)
    (collected : Except String (List (String × D))) (writeFails : Bool)
    (cache : List (CollectedData D)) (now : Nat) (tenant : String) :
    Option String × List (CollectedData D) :=
  if tenantFound = false then (none, cache)
  else
    match collectBody collected writeFails cache now tenant with
    | .ok c => (none, c)
    | .error _ => (none, cache)

/-- C6: run_collect_job never lets an exception escape (the escaping-error
component is always `none`); whenever the body raises — in particular when
the tenant's collection fails or the cache write fails — the exception is
caught and the previously cached CollectedData rows are returned unchanged,
so the next send uses the old cache. -/
theorem run_collect_job_no_crash {D : Type} (tenantFound : Bool)
    (collected : Except String (List (String × D))) (writeFails : Bool)
    (cache : List (CollectedData D)) (now : Nat) (tenant : String) :
    (run_collect_job tenantFound collected writeFails cache now tenant).1 = none ∧
    (∀ e, collectBody collected writeFails cache now tenant = .error e →
      (run_collect_job tenantFound collected writeFails cache now tenant).2 = cache) ∧
    ((∃ e, collected = .error e) ∨ writeFails = true →
      (run_collect_job tenantFound collected writeFails cache now tenant).2 = cache) := by
  rcases collected with e | items
  · by_cases ht : tenantFound <;> simp_all [run_collect_job, collectBody]
  · by_cases ht : tenantFound <;> by_cases hw : writeFails <;>
      by_cases hi : items.isEmpty <;>
      simp_all [run_collect_job, collectBody]

/-- Witness for C6 at a concrete input: the upstream collection fails and
the one cached row survives untouched. -/
theorem run_collect_job_no_crash_witness :
    (run_collect_job true (Except.error "upstream down") false
      [⟨0, "edufit", "news", (7 : Nat), 5⟩] 100 "edufit").1 = none ∧
    (∀ e, collectBody (Except.error "upstream down") false
        [⟨0, "edufit", "news", (7 : Nat), 5⟩] 100 "edufit" = .error e →
      (run_collect_job true (Except.error "upstream down") false
        [⟨0, "edufit", "news", (7 : Nat), 5⟩] 100 "edufit").2 =
        [⟨0, "edufit", "news", (7 : Nat), 5⟩]) ∧
    ((∃ e, (Except.error "upstream down" : Except String (List (String × Nat))) = .error e) ∨
        false = true →
      (run_collect_job true (Except.error "upstream down") false
        [⟨0, "edufit", "news", (7 : Nat), 5⟩] 100 "edufit").2 =
        [⟨0, "edufit", "news", (7 : Nat), 5⟩]) :=
  run_collect_job_no_crash true (Except.error "upstream down") false
    [⟨0, "edufit", "news", (7 : Nat), 5⟩] 100 "edufit"

/-! ## Subscriber and SubscriberRepository
(src/src/common/database/models.py, src/src/common/database/repository.py)

`subscribers` rows; the table carries the unique constraint
`uq_subscriber_tenant_email` on `(tenant_id, email)`.  `.first()` queries
become `List.find?`, `.all()` queries become `List.filter`. -/

structure Subscriber where
  id : Nat
  tenant_id : String
  email : String
  name : Option String
  unsubscribe_token : String
  is_active : Bool
  created_at : Nat
  updated_at : Nat
deriving Repr, DecidableEq

def SubscriberRepository.get_by_email (db : List Subscriber) (t e : String) :
    Option Subscriber :=
  db.find? (fun s => s.tenant_id == t && s.email == e)

def SubscriberRepository.get_active_by_email (db : List Subscriber) (t e : String) :
    Option Subscriber :=
  db.find? (fun s => s.tenant_id == t && s.email == e && s.is_active)

def SubscriberRepository.get_all_active (db : List Subscriber) (t : String) :
    List Subscriber :=
  db.filter (fun s => s.tenant_id == t && s.is_active)

def SubscriberRepository.get_by_unsubscribe_token (db : List Subscriber)
    (token : String) : Option Subscriber :=
  db.find? (fun s => s.unsubscribe_token == token && s.is_active)

def SubscriberRepository.count_by_tenant (db : List Subscriber) (t : String)
    (active_only : Bool) : Nat :=
  let q := db.filter (fun s => s.tenant_id == t)
  if active_only then (q.filter (fun s => s.is_active)).length else q.length

/-- The `ilike("%search%")` test: case-insensitive substring containment. -/
def ilikeContains (hay pat : String) : Bool :=
  decide (1 < ((hay.toLower).splitOn (pat.toLower)).length)

/-- Insertion step for `order_by(created_at.desc())`. -/
def insertByCreatedDesc (s : Subscriber) : List Subscriber → List Subscriber
  | [] => [s]
  | x :: xs =>
    if x.created_at ≤ s.created_at then s :: x :: xs
    else x :: insertByCreatedDesc s xs

/-- The `order_by(Subscriber.created_at.desc())` sort. -/
def orderByCreatedDesc : List Subscriber → List Subscriber
  | [] => []
  | x :: xs => insertByCreatedDesc x (orderByCreatedDesc xs)

theorem mem_insertByCreatedDesc (x s : Subscriber) (l : List Subscriber) :
    x ∈ insertByCreatedDesc s l ↔ x = s ∨ x ∈ l := by
  induction l with
  | nil => simp [insertByCreatedDesc]
  | cons a as ih =>
    by_cases ha : a.created_at ≤ s.created_at <;>
      simp [insertByCreatedDesc, ha, ih] <;> tauto

theorem mem_orderByCreatedDesc (x : Subscriber) (l : List Subscriber) :
    x ∈ orderByCreatedDesc l ↔ x ∈ l := by
  induction l with
  | nil => simp [orderByCreatedDesc]
  | cons a as ih => simp [orderByCreatedDesc, mem_insertByCreatedDesc, ih, eq_comm]

/-- Embedding of `SubscriberRepository.get_all_by_tenant`: tenant filter,
optional active filter, optional `ilike` search on email and name, the
total count, and pagination over the `created_at`-descending order.  Returns
`(items, total)`. -/
def SubscriberRepository.get_all_by_tenant (db : List Subscriber) (t : String)
    (active_only : Option Bool) (search : String) (off lim : Nat) :
    List Subscriber × Nat :=
  let q1 := db.filter (fun s => s.tenant_id == t)
  let q2 := match active_only with
    | some true => q1.filter (fun s => s.is_active)
    | some false => q1.filter (fun s => s.is_active == false)
    | none => q1
  let q3 := if search.isEmpty then q2
    else q2.filter (fun s =>
      ilikeContains s.email search || ilikeContains (s.name.getD "") search)
  (((orderByCreatedDesc q3).drop off).take lim, q3.length)

/-- C2: tenant isolation of subscribers.  A subscriber whose `tenant_id` is
A is never returned by `get_by_email`, `get_active_by_email`,
`get_all_active` or `get_all_by_tenant` issued for a distinct tenant B, and
`count_by_tenant` for B does not count it (inserting it leaves the count
unchanged). -/
theorem subscriber_tenant_isolation (db : List Subscriber) (A B e : String)
    (ao : Bool) (ao2 : Option Bool) (search : String) (off lim : Nat)
    (s : Subscriber) (hA : s.tenant_id = A) (hAB : A ≠ B) :
    SubscriberRepository.get_by_email db B e ≠ some s ∧
    SubscriberRepository.get_active_by_email db B e ≠ some s ∧
    s ∉ SubscriberRepository.get_all_active db B ∧
    SubscriberRepository.count_by_tenant (s :: db) B ao =
      SubscriberRepository.count_by_tenant db B ao ∧
    s ∉ (SubscriberRepository.get_all_by_tenant db B ao2 search off lim).1 := by
  have hsB : (s.tenant_id == B) = false := by
    simp only [hA, beq_eq_false_iff_ne, ne_eq]
    exact hAB
  refine ⟨?_, ?_, ?_, ?_, ?_⟩
  · intro h
    have := List.find?_some h
    simp [hsB] at this
  · intro h
    have := List.find?_some h
    simp [hsB] at this
  · intro h
    have := (List.mem_filter.mp h).2
    simp [hsB] at this
  · simp [SubscriberRepository.count_by_tenant, List.filter_cons, hsB]
  · intro h
    have h3 := List.mem_of_mem_take h
    have h4 := List.mem_of_mem_drop h3
    rw [mem_orderByCreatedDesc] at h4
    have h5 : s ∈ db.filter (fun s => s.tenant_id == B) := by
      split at h4
      · split at h4
        · exact (List.mem_filter.mp h4).1
        · exact (List.mem_filter.mp h4).1
        · exact h4
      · replace h4 := (List.mem_filter.mp h4).1
        split at h4
        · exact (List.mem_filter.mp h4).1
        · exact (List.mem_filter.mp h4).1
        · exact h4
    have := (List.mem_filter.mp h5).2
    simp [hsB] at this

/-- Witness for C2 at a concrete database: a subscriber of tenant
`"edufit"` is invisible to every query for tenant `"teacher_hub"`. -/
theorem subscriber_tenant_isolation_witness :
    SubscriberRepository.get_by_email
      [⟨1, "edufit", "a@x", none, "tok", true, 0, 0⟩] "teacher_hub" "a@x" ≠
      some ⟨1, "edufit", "a@x", none, "tok", true, 0, 0⟩ ∧
    SubscriberRepository.get_active_by_email
      [⟨1, "edufit", "a@x", none, "tok", true, 0, 0⟩] "teacher_hub" "a@x" ≠
      some ⟨1, "edufit", "a@x", none, "tok", true, 0, 0⟩ ∧
    (⟨1, "edufit", "a@x", none, "tok", true, 0, 0⟩ : Subscriber) ∉
      SubscriberRepository.get_all_active
        [⟨1, "edufit", "a@x", none, "tok", true, 0, 0⟩] "teacher_hub" ∧
    SubscriberRepository.count_by_tenant
      (⟨1, "edufit", "a@x", none, "tok", true, 0, 0⟩ ::
        [⟨1, "edufit", "a@x", none, "tok", true, 0, 0⟩]) "teacher_hub" true =
      SubscriberRepository.count_by_tenant
        [⟨1, "edufit", "a@x", none, "tok", true, 0, 0⟩] "teacher_hub" true ∧
    (⟨1, "edufit", "a@x", none, "tok", true, 0, 0⟩ : Subscriber) ∉
      (SubscriberRepository.get_all_by_tenant
        [⟨1, "edufit", "a@x", none, "tok", true, 0, 0⟩] "teacher_hub"
        (some true) "a" 0 20).1 :=
  subscriber_tenant_isolation [⟨1, "edufit", "a@x", none, "tok", true, 0, 0⟩]
    "edufit" "teacher_hub" "a@x" true (some true) "a" 0 20
    ⟨1, "edufit", "a@x", none, "tok", true, 0, 0⟩ rfl (by decide)

/-! ## SendHistory and SendHistoryRepository
(src/src/common/database/models.py, src/src/common/database/repository.py)

Rows of `send_history`.  The autoincrement primary key is not consulted by
any query used here and is omitted.  The returned set of
`get_sent_today_subscriber_ids` is modelled as the list of matching
subscriber ids; only membership in it is ever used. -/

structure SendHistory where
  tenant_id : String
  subscriber_id : Nat
  subject : String
  newsletter_type : String
  is_success : Bool
  error_message : Option String
  sent_at : Nat
deriving Repr, DecidableEq

/-- Embedding of `SendHistoryRepository.create`: append one row with
`sent_at` defaulted to the current time. -/
def SendHistoryRepository.create (db : List SendHistory) (t : String) (sid : Nat)
    (subj : String) (succ : Bool) (err : Option String) (ntype : String)
    (now : Nat) : List SendHistory :=
  db ++ [⟨t, sid, subj, ntype, succ, err, now⟩]

/-- Embedding of `SendHistoryRepository.get_sent_today_subscriber_ids`:
ids of subscribers of the tenant with a successful row since UTC midnight
(`sent_at >= today_start AND is_success == True`). -/
def SendHistoryRepository.get_sent_today_subscriber_ids (db : List SendHistory)
    (t : String) (todayStart : Nat) : List Nat :=
  (db.filter (fun h => h.tenant_id == t && decide (todayStart ≤ h.sent_at) &&
    h.is_success)).map (fun h => h.subscriber_id)

/-! ## run_send_job (src/src/common/scheduler/jobs.py), daily path

The job looks up the tenant, checks the sender configuration, prepares and
renders the newsletter (collapsed into the booleans and strings of
`SendJobEnv`; none of them touch the dedup or retry logic), loads the active
subscribers, removes those already sent to today, builds one message per
remaining subscriber, performs a first batch send, records one SendHistory
row per attempted message, sleeps 5 seconds and re-sends the failed
messages once, recording an extra row for each retry success only. -/

structure SendJobEnv where
  tenantFound : Bool
  configured : Bool
  prepOk : Bool
  renderOk : Bool
  subject : String
  html : String
  webBase : String
  tenant : String
  display : String
  o1 : SmtpOracle
  o2 : SmtpOracle

/-- The per-subscriber unsubscribe link substituted into the rendered HTML. -/
def mkUnsubscribeUrl (webBase tenant token : String) : String :=
  webBase ++ "/" ++ tenant ++ "/unsubscribe/token/" ++ token

/-- One outgoing message for a subscriber, as built in the send loop. -/
def mkMessage (env : SendJobEnv) (s : Subscriber) : Msg :=
  ⟨s.email, env.subject,
    env.html.replace "__UNSUBSCRIBE_URL__"
      (mkUnsubscribeUrl env.webBase env.tenant s.unsubscribe_token),
    env.display⟩

/-- Observable outcome of one `run_send_job` run: the `target_subscribers`
list, the message list of each `send_batch_efficient` call in order, the
final `send_history` table, and the `time.sleep` durations performed. -/
structure SendJobResult where
  targets : List Subscriber
  batches : List (List Msg)
  history : List SendHistory
  sleeps : List Nat

/-- The `target_subscribers` computation of `run_send_job`: active
subscribers of the tenant minus those whose id is in
`get_sent_today_subscriber_ids`. -/
def sendTargets (env : SendJobEnv) (subscribers : List Subscriber)
    (history : List SendHistory) (todayStart : Nat) : List Subscriber :=
  (SubscriberRepository.get_all_active subscribers env.tenant).filter
    (fun s => !((SendHistoryRepository.get_sent_today_subscriber_ids history
      env.tenant todayStart).contains s.id))

/-- The `messages` list of `run_send_job`: one message per target
subscriber. -/
def sendMessages (env : SendJobEnv) (subscribers : List Subscriber)
    (history : List SendHistory) (todayStart : Nat) : List Msg :=
  (sendTargets env subscribers history todayStart).map (mkMessage env)

/-- The `results` of the first `send_batch_efficient` call. -/
def firstResults (env : SendJobEnv) (subscribers : List Subscriber)
    (history : List SendHistory) (todayStart : Nat) : List SendResult :=
  send_batch_efficient env.configured env.o1
    (sendMessages env subscribers history todayStart)

/-- The history table after the first-pass loop, which records one row per
attempted message via `SendHistoryRepository.create`. -/
def historyAfterFirst (env : SendJobEnv) (subscribers : List Subscriber)
    (history : List SendHistory) (todayStart now : Nat) : List SendHistory :=
  ((sendTargets env subscribers history todayStart).zip
      (firstResults env subscribers history todayStart)).foldl
    (fun db p => SendHistoryRepository.create db env.tenant p.1.id
      env.subject p.2.success p.2.error_message "daily" now) history

/-- The `failed_items` of the first pass (subscriber and message kept
together with the failing result). -/
def failedItems (env : SendJobEnv) (subscribers : List Subscriber)
    (history : List SendHistory) (todayStart : Nat) :
    List (Subscriber × Msg × SendResult) :=
  ((sendTargets env subscribers history todayStart).zip
      ((sendMessages env subscribers history todayStart).zip
        (firstResults env subscribers history todayStart))).filter
    (fun p => p.2.2.success == false)

/-- The messages re-sent once after the 5-second sleep. -/
def retryMessages (env : SendJobEnv) (subscribers : List Subscriber)
    (history : List SendHistory) (todayStart : Nat) : List Msg :=
  (failedItems env subscribers history todayStart).map (fun p => p.2.1)

/-- The `retry_results` of the second `send_batch_efficient` call. -/
def retrySendResults (env : SendJobEnv) (subscribers : List Subscriber)
    (history : List SendHistory) (todayStart : Nat) : List SendResult :=
  send_batch_efficient env.configured env.o2
    (retryMessages env subscribers history todayStart)

/-- The history table after the retry loop, which records a row only for
each retry success. -/
def historyAfterRetry (env : SendJobEnv) (subscribers : List Subscriber)
    (history : List SendHistory) (todayStart now : Nat) : List SendHistory :=
  ((failedItems env subscribers history todayStart).zip
      (retrySendResults env subscribers history todayStart)).foldl
    (fun db p =>
      if p.2.success then
        SendHistoryRepository.create db env.tenant p.1.1.id
          env.subject true none "daily" now
      else db)
    (historyAfterFirst env subscribers history todayStart now)

/-- The sending part of `run_send_job` after all early-return guards:
build the messages (early return when there are none), first batch send,
record one history row per attempted message, and — when there are
failures — sleep 5 seconds, re-send the failed messages once and record a
row for each retry success only. -/
def sendPhase (env : SendJobEnv) (subscribers : List Subscriber)
    (history : List SendHistory) (todayStart now : Nat) : SendJobResult :=
  if (sendMessages env subscribers history todayStart).isEmpty then
    ⟨sendTargets env subscribers history todayStart, [], history, []⟩
  else if (failedItems env subscribers history todayStart).isEmpty then
    ⟨sendTargets env subscribers history todayStart,
     [sendMessages env subscribers history todayStart],
     historyAfterFirst env subscribers history todayStart now, []⟩
  else
    ⟨sendTargets env subscribers history todayStart,
     [sendMessages env subscribers history todayStart,
      retryMessages env subscribers history todayStart],
     historyAfterRetry env subscribers history todayStart now, [5]⟩

/-- Embedding of `run_send_job` for `newsletter_type="daily"`: the early
returns (tenant missing, sender unconfigured, preparation or rendering
failed, no subscribers) followed by the send phase. -/
def run_send_job (env : SendJobEnv) (subscribers : List Subscriber)
    (history : List SendHistory) (todayStart now : Nat) : SendJobResult :=
  if env.tenantFound = false then ⟨[], [], history, []⟩
  else if env.configured = false then ⟨[], [], history, []⟩
  else if env.prepOk = false then ⟨[], [], history, []⟩
  else if env.renderOk = false then ⟨[], [], history, []⟩
  else if (SubscriberRepository.get_all_active subscribers env.tenant).isEmpty then
    ⟨[], [], history, []⟩
  else sendPhase env subscribers history todayStart now

theorem run_send_job_early (env : SendJobEnv) (subscribers : List Subscriber)
    (history : List SendHistory) (todayStart now : Nat)
    (hg : env.tenantFound = false ∨ env.configured = false ∨ env.prepOk = false ∨
      env.renderOk = false ∨
      (SubscriberRepository.get_all_active subscribers env.tenant).isEmpty = true) :
    run_send_job env subscribers history todayStart now = ⟨[], [], history, []⟩ := by
  unfold run_send_job
  rcases hg with h | h | h | h | h <;> split_ifs <;> simp_all

theorem run_send_job_main (env : SendJobEnv) (subscribers : List Subscriber)
    (history : List SendHistory) (todayStart now : Nat)
    (h1 : env.tenantFound = true) (h2 : env.configured = true)
    (h3 : env.prepOk = true) (h4 : env.renderOk = true)
    (h5 : (SubscriberRepository.get_all_active subscribers env.tenant).isEmpty = false) :
    run_send_job env subscribers history todayStart now =
      sendPhase env subscribers history todayStart now := by
  unfold run_send_job
  simp [h1, h2, h3, h4, h5]

theorem sendPhase_targets_eq (env : SendJobEnv) (subscribers : List Subscriber)
    (history : List SendHistory) (todayStart now : Nat) :
    (sendPhase env subscribers history todayStart now).targets =
      sendTargets env subscribers history todayStart := by
  unfold sendPhase
  split_ifs <;> rfl

theorem mem_sendMessages_recipient (env : SendJobEnv) (subscribers : List Subscriber)
    (history : List SendHistory) (todayStart : Nat) (m : Msg)
    (hm : m ∈ sendMessages env subscribers history todayStart) :
    ∃ s' ∈ sendTargets env subscribers history todayStart, m.recipient = s'.email := by
  obtain ⟨s', hs', rfl⟩ := List.mem_map.mp hm
  exact ⟨s', hs', rfl⟩

theorem mem_failedItems_target (env : SendJobEnv) (subscribers : List Subscriber)
    (history : List SendHistory) (todayStart : Nat)
    (p : Subscriber × Msg × SendResult)
    (hp : p ∈ failedItems env subscribers history todayStart) :
    p.1 ∈ sendTargets env subscribers history todayStart ∧
      p.2.1 ∈ sendMessages env subscribers history todayStart := by
  have hp2 := (List.mem_filter.mp hp).1
  obtain ⟨a, b, c⟩ := p
  have h1 := List.of_mem_zip hp2
  exact ⟨h1.1, (List.of_mem_zip h1.2).1⟩

theorem mem_retryMessages_sub (env : SendJobEnv) (subscribers : List Subscriber)
    (history : List SendHistory) (todayStart : Nat) (m : Msg)
    (hm : m ∈ retryMessages env subscribers history todayStart) :
    m ∈ sendMessages env subscribers history todayStart := by
  obtain ⟨p, hp, rfl⟩ := List.mem_map.mp hm
  exact (mem_failedItems_target env subscribers history todayStart p hp).2

theorem sendPhase_batches_recipient (env : SendJobEnv) (subscribers : List Subscriber)
    (history : List SendHistory) (todayStart now : Nat) (b : List Msg)
    (hb : b ∈ (sendPhase env subscribers history todayStart now).batches)
    (m : Msg) (hm : m ∈ b) :
    ∃ s' ∈ sendTargets env subscribers history todayStart, m.recipient = s'.email := by
  unfold sendPhase at hb
  split_ifs at hb
  · simp at hb
  · simp at hb
    subst hb
    exact mem_sendMessages_recipient env subscribers history todayStart m hm
  · simp at hb
    rcases hb with rfl | rfl
    · exact mem_sendMessages_recipient env subscribers history todayStart m hm
    · exact mem_sendMessages_recipient env subscribers history todayStart m
        (mem_retryMessages_sub env subscribers history todayStart m hm)

theorem sendPhase_shape (env : SendJobEnv) (subscribers : List Subscriber)
    (history : List SendHistory) (todayStart now : Nat) :
    ((sendPhase env subscribers history todayStart now).batches = [] ∧
      (sendPhase env subscribers history todayStart now).sleeps = []) ∨
    (∃ b1, (sendPhase env subscribers history todayStart now).batches = [b1] ∧
      (sendPhase env subscribers history todayStart now).sleeps = []) ∨
    (∃ b1 b2, (sendPhase env subscribers history todayStart now).batches = [b1, b2] ∧
      (∀ m ∈ b2, m ∈ b1) ∧
      (sendPhase env subscribers history todayStart now).sleeps = [5]) := by
  unfold sendPhase
  split_ifs
  · exact Or.inl ⟨rfl, rfl⟩
  · exact Or.inr (Or.inl ⟨_, rfl, rfl⟩)
  · exact Or.inr (Or.inr ⟨_, _, rfl,
      fun m hm => mem_retryMessages_sub env subscribers history todayStart m hm, rfl⟩)

theorem sendTargets_nil_sendPhase (env : SendJobEnv) (subscribers : List Subscriber)
    (history : List SendHistory) (todayStart now : Nat)
    (hT : sendTargets env subscribers history todayStart = []) :
    sendPhase env subscribers history todayStart now = ⟨[], [], history, []⟩ := by
  have hm : (sendMessages env subscribers history todayStart).isEmpty = true := by
    simp [sendMessages, hT]
  unfold sendPhase
  simp [hm, hT]

theorem foldl_create_eq (tenant subject ntype : String) (now : Nat)
    (l : List (Subscriber × SendResult)) (init : List SendHistory) :
    l.foldl (fun db p => SendHistoryRepository.create db tenant p.1.id subject
      p.2.success p.2.error_message ntype now) init =
    init ++ l.map (fun p =>
      (⟨tenant, p.1.id, subject, ntype, p.2.success, p.2.error_message, now⟩ :
        SendHistory)) := by
  induction l generalizing init with
  | nil => simp
  | cons a as ih =>
    rw [List.foldl_cons, ih]
    simp [SendHistoryRepository.create]

theorem foldl_create_retry_eq (tenant subject ntype : String) (now : Nat)
    (l : List ((Subscriber × Msg × SendResult) × SendResult))
    (init : List SendHistory) :
    l.foldl (fun db p =>
      if p.2.success then
        SendHistoryRepository.create db tenant p.1.1.id subject true none ntype now
      else db) init =
    init ++ (l.filter (fun p => p.2.success)).map (fun p =>
      (⟨tenant, p.1.1.id, subject, ntype, true, none, now⟩ : SendHistory)) := by
  induction l generalizing init with
  | nil => simp
  | cons a as ih =>
    rw [List.foldl_cons, ih]
    by_cases ha : a.2.success <;>
      simp [List.filter_cons, ha, SendHistoryRepository.create]

theorem sendPhase_history_extra (env : SendJobEnv) (subscribers : List Subscriber)
    (history : List SendHistory) (todayStart now : Nat) :
    ∃ extra, (sendPhase env subscribers history todayStart now).history =
        history ++ extra ∧
      ∀ h ∈ extra, ∃ s' ∈ sendTargets env subscribers history todayStart,
        h.subscriber_id = s'.id := by
  have hfirst : historyAfterFirst env subscribers history todayStart now =
      history ++ ((sendTargets env subscribers history todayStart).zip
        (firstResults env subscribers history todayStart)).map (fun p =>
          (⟨env.tenant, p.1.id, env.subject, "daily", p.2.success,
            p.2.error_message, now⟩ : SendHistory)) := by
    unfold historyAfterFirst
    rw [foldl_create_eq]
  have hmem1 : ∀ h ∈ ((sendTargets env subscribers history todayStart).zip
      (firstResults env subscribers history todayStart)).map (fun p =>
        (⟨env.tenant, p.1.id, env.subject, "daily", p.2.success,
          p.2.error_message, now⟩ : SendHistory)),
      ∃ s' ∈ sendTargets env subscribers history todayStart,
        h.subscriber_id = s'.id := by
    intro h hh
    obtain ⟨p, hp, rfl⟩ := List.mem_map.mp hh
    obtain ⟨a, c⟩ := p
    exact ⟨a, (List.of_mem_zip hp).1, rfl⟩
  unfold sendPhase
  split_ifs
  · exact ⟨[], by simp, by simp⟩
  · exact ⟨_, hfirst, hmem1⟩
  · have hretry : historyAfterRetry env subscribers history todayStart now =
        historyAfterFirst env subscribers history todayStart now ++
          (((failedItems env subscribers history todayStart).zip
            (retrySendResults env subscribers history todayStart)).filter
              (fun p => p.2.success)).map (fun p =>
            (⟨env.tenant, p.1.1.id, env.subject, "daily", true, none, now⟩ :
              SendHistory)) := by
      unfold historyAfterRetry
      rw [foldl_create_retry_eq]
    refine ⟨_, by rw [hretry, hfirst, List.append_assoc], ?_⟩
    intro h hh
    rcases List.mem_append.mp hh with h1 | h2
    · exact hmem1 h h1
    · obtain ⟨p, hp, rfl⟩ := List.mem_map.mp h2
      have hpf := (List.mem_filter.mp hp).1
      obtain ⟨q, c⟩ := p
      have hq := (List.of_mem_zip hpf).1
      exact ⟨q.1, (mem_failedItems_target env subscribers history todayStart q hq).1, rfl⟩

/-- C1: within the same day a daily `run_send_job` is a no-op for a
subscriber already successfully sent to.  A subscriber of tenant T holding a
successful SendHistory row dated today is excluded from
`target_subscribers`, no message with their address is handed to any batch
send, and no new SendHistory row for them is written; when every active
subscriber of T holds such a row the run performs no batch send at all and
the history table is unchanged.  The `(tenant_id, email)` uniqueness
hypothesis is the table's `uq_subscriber_tenant_email` constraint. -/
theorem run_send_job_sent_today_noop (env : SendJobEnv)
    (subscribers : List Subscriber) (history : List SendHistory)
    (todayStart now : Nat) (s : Subscriber)
    (hs : s ∈ subscribers) (hst : s.tenant_id = env.tenant)
    (hsa : s.is_active = true)
    (huniq : ∀ s' ∈ subscribers, s'.tenant_id = env.tenant →
      s'.email = s.email → s'.id = s.id)
    (hsent : ∃ h ∈ history, h.tenant_id = env.tenant ∧ h.subscriber_id = s.id ∧
      todayStart ≤ h.sent_at ∧ h.is_success = true) :
    s ∉ (run_send_job env subscribers history todayStart now).targets ∧
    (∀ b ∈ (run_send_job env subscribers history todayStart now).batches,
      ∀ m ∈ b, m.recipient ≠ s.email) ∧
    (∃ extra, (run_send_job env subscribers history todayStart now).history =
        history ++ extra ∧ ∀ h ∈ extra, h.subscriber_id ≠ s.id) ∧
    ((∀ s' ∈ subscribers, s'.tenant_id = env.tenant → s'.is_active = true →
        ∃ h ∈ history, h.tenant_id = env.tenant ∧ h.subscriber_id = s'.id ∧
          todayStart ≤ h.sent_at ∧ h.is_success = true) →
      (run_send_job env subscribers history todayStart now).batches = [] ∧
      (run_send_job env subscribers history todayStart now).history = history) := by
  have hmem : s.id ∈ SendHistoryRepository.get_sent_today_subscriber_ids
      history env.tenant todayStart := by
    obtain ⟨h, hh, h1, h2, h3, h4⟩ := hsent
    refine List.mem_map.mpr ⟨h, List.mem_filter.mpr ⟨hh, ?_⟩, h2⟩
    simp [h1, h3, h4]
  have hTfact : ∀ s' ∈ sendTargets env subscribers history todayStart,
      s'.id ∉ SendHistoryRepository.get_sent_today_subscriber_ids
        history env.tenant todayStart ∧
      s' ∈ subscribers ∧ s'.tenant_id = env.tenant := by
    intro s' hs'
    have h1 := List.mem_filter.mp hs'
    have h2 := List.mem_filter.mp h1.1
    refine ⟨?_, h2.1, ?_⟩
    · simpa using h1.2
    · have := h2.2
      simp only [Bool.and_eq_true, beq_iff_eq] at this
      exact this.1
  have hTne : ∀ s' ∈ sendTargets env subscribers history todayStart,
      s'.id ≠ s.id := by
    intro s' hs' heq
    exact (hTfact s' hs').1 (heq ▸ hmem)
  by_cases hg : env.tenantFound = false ∨ env.configured = false ∨
      env.prepOk = false ∨ env.renderOk = false ∨
      (SubscriberRepository.get_all_active subscribers env.tenant).isEmpty = true
  · rw [run_send_job_early env subscribers history todayStart now hg]
    exact ⟨by simp, by simp, ⟨[], by simp, by simp⟩, fun _ => ⟨rfl, rfl⟩⟩
  · simp only [not_or, Bool.not_eq_false, Bool.not_eq_true] at hg
    obtain ⟨g1, g2, g3, g4, g5⟩ := hg
    rw [run_send_job_main env subscribers history todayStart now g1 g2 g3 g4 g5]
    refine ⟨?_, ?_, ?_, ?_⟩
    · rw [sendPhase_targets_eq]
      intro hmt
      exact hTne s hmt rfl
    · intro b hb m hm heq
      obtain ⟨s', hs', hrec⟩ :=
        sendPhase_batches_recipient env subscribers history todayStart now b hb m hm
      have hfact := hTfact s' hs'
      have hem : s'.email = s.email := by rw [← hrec, heq]
      exact hTne s' hs' (huniq s' hfact.2.1 hfact.2.2 hem)
    · obtain ⟨extra, hex, hexmem⟩ :=
        sendPhase_history_extra env subscribers history todayStart now
      refine ⟨extra, hex, ?_⟩
      intro h hh heq
      obtain ⟨s', hs', hid⟩ := hexmem h hh
      exact hTne s' hs' (by rw [← hid, heq])
    · intro hall
      have hT : sendTargets env subscribers history todayStart = [] := by
        refine List.filter_eq_nil_iff.mpr ?_
        intro x hx
        have h2 := List.mem_filter.mp hx
        have h3 : x.tenant_id = env.tenant ∧ x.is_active = true := by
          have := h2.2
          simp only [Bool.and_eq_true, beq_iff_eq] at this
          exact this
        obtain ⟨hrow, hhh, r1, r2, r3, r4⟩ := hall x h2.1 h3.1 h3.2
        have hxmem : x.id ∈ SendHistoryRepository.get_sent_today_subscriber_ids
            history env.tenant todayStart := by
          refine List.mem_map.mpr ⟨hrow, List.mem_filter.mpr ⟨hhh, ?_⟩, r2⟩
          simp [r1, r3, r4]
        simp [hxmem]
      rw [sendTargets_nil_sendPhase env subscribers history todayStart now hT]
      exact ⟨rfl, rfl⟩

/-- Environment used by the C1 witness: every guard passes and the SMTP
server accepts everything. -/
def w1Env : SendJobEnv :=
  ⟨true, true, true, true, "s", "h", "w", "t", "d",
    ⟨true, fun _ => .res true none, fun _ => none⟩,
    ⟨true, fun _ => .res true none, fun _ => none⟩⟩

def w1Sub : Subscriber := ⟨1, "t", "a@x", none, "k", true, 0, 0⟩

def w1Hist : List SendHistory := [⟨"t", 1, "s", "daily", true, none, 5⟩]

/-- Witness for C1: the lone active subscriber already has a successful row
today, so the run sends nothing and writes nothing. -/
theorem run_send_job_sent_today_noop_witness :
    w1Sub ∉ (run_send_job w1Env [w1Sub] w1Hist 0 9).targets ∧
    (∀ b ∈ (run_send_job w1Env [w1Sub] w1Hist 0 9).batches,
      ∀ m ∈ b, m.recipient ≠ w1Sub.email) ∧
    (∃ extra, (run_send_job w1Env [w1Sub] w1Hist 0 9).history = w1Hist ++ extra ∧
      ∀ h ∈ extra, h.subscriber_id ≠ w1Sub.id) ∧
    ((∀ s' ∈ [w1Sub], s'.tenant_id = w1Env.tenant → s'.is_active = true →
        ∃ h ∈ w1Hist, h.tenant_id = w1Env.tenant ∧ h.subscriber_id = s'.id ∧
          0 ≤ h.sent_at ∧ h.is_success = true) →
      (run_send_job w1Env [w1Sub] w1Hist 0 9).batches = [] ∧
      (run_send_job w1Env [w1Sub] w1Hist 0 9).history = w1Hist) :=
  run_send_job_sent_today_noop w1Env [w1Sub] w1Hist 0 9 w1Sub
    (by decide) (by decide) (by decide) (by decide) (by decide)

/-- An SMTP behaviour that fails every delivery outright. -/
def alwaysFailOracle : SmtpOracle :=
  ⟨true, fun _ => .res false (some "send failed"), fun _ => none⟩

def c3Env : SendJobEnv :=
  ⟨true, true, true, true, "subj", "html", "w", "edufit", "Edufit",
    alwaysFailOracle, alwaysFailOracle⟩

def c3Sub : Subscriber := ⟨1, "edufit", "a@x", none, "tok", true, 0, 0⟩

/-- Number of delivery attempts run_send_job makes for a recipient: how many
times a message addressed to them appears across the batch-send calls. -/
def attemptsFor (r : SendJobResult) (recip : String) : Nat :=
  (r.batches.map (fun b => (b.filter (fun m => m.recipient == recip)).length)).sum

/-- C3 counterexample: with the SMTP server failing every delivery, the
single subscriber's message is attempted exactly twice — not three times —
before being given up, and the only delay between the attempts is the fixed
5-second sleep, not an exponential backoff schedule. -/
theorem smtp_retry_three_attempts_counterexample :
    attemptsFor (run_send_job c3Env [c3Sub] [] 0 100) "a@x" = 2 ∧
    attemptsFor (run_send_job c3Env [c3Sub] [] 0 100) "a@x" ≠ 3 ∧
    (run_send_job c3Env [c3Sub] [] 0 100).sleeps = [5] := by
  refine ⟨rfl, ?_, rfl⟩
  intro h
  rw [show attemptsFor (run_send_job c3Env [c3Sub] [] 0 100) "a@x" = 2 from rfl] at h
  exact absurd h (by decide)

/-- C3 (amended): a message whose delivery fails in run_send_job is
attempted at most 2 times in total — the initial batch plus one retry batch
drawn from it — with a single fixed 5-second sleep before the retry, before
it is given up. -/
theorem run_send_job_retry_once (env : SendJobEnv) (subscribers : List Subscriber)
    (history : List SendHistory) (todayStart now : Nat) :
    ((run_send_job env subscribers history todayStart now).batches = [] ∧
      (run_send_job env subscribers history todayStart now).sleeps = []) ∨
    (∃ b1, (run_send_job env subscribers history todayStart now).batches = [b1] ∧
      (run_send_job env subscribers history todayStart now).sleeps = []) ∨
    (∃ b1 b2, (run_send_job env subscribers history todayStart now).batches = [b1, b2] ∧
      (∀ m ∈ b2, m ∈ b1) ∧
      (run_send_job env subscribers history todayStart now).sleeps = [5]) := by
  by_cases hg : env.tenantFound = false ∨ env.configured = false ∨
      env.prepOk = false ∨ env.renderOk = false ∨
      (SubscriberRepository.get_all_active subscribers env.tenant).isEmpty = true
  · rw [run_send_job_early env subscribers history todayStart now hg]
    exact Or.inl ⟨rfl, rfl⟩
  · simp only [not_or, Bool.not_eq_false, Bool.not_eq_true] at hg
    obtain ⟨g1, g2, g3, g4, g5⟩ := hg
    rw [run_send_job_main env subscribers history todayStart now g1 g2 g3 g4 g5]
    exact sendPhase_shape env subscribers history todayStart now

/-! ## SubscriptionManager (src/src/common/subscription/manager.py)

Email-verification based subscribe/unsubscribe.  `random.choices` is the
oracle `pick`; the unsubscribe token (SHA-256 of email, random hex and the
current time) is the parameter `token`; new primary keys are the `fresh*`
parameters.  The session state is the pair of the `subscribers` and
`email_verifications` tables. -/

inductive VerificationType where
  | subscribe
  | unsubscribe
deriving Repr, DecidableEq

structure EmailVerification where
  id : Nat
  tenant_id : String
  email : String
  name : Option String
  code : String
  verification_type : VerificationType
  is_verified : Bool
  attempts : Nat
  created_at : Nat
  expires_at : Nat
deriving Repr, DecidableEq

structure SubDb where
  subscribers : List Subscriber
  verifications : List EmailVerification
deriving Repr

def EmailVerificationRepository.get_by_id_and_email (db : List EmailVerification)
    (vid : Nat) (email : String) : Option EmailVerification :=
  db.find? (fun v => v.id == vid && v.email == email)

def EmailVerificationRepository.get_unsubscribe_by_id_and_email
    (db : List EmailVerification) (vid : Nat) (email : String) :
    Option EmailVerification :=
  db.find? (fun v => v.id == vid && v.email == email &&
    v.verification_type == VerificationType.unsubscribe)

/-- Embedding of `EmailVerificationRepository.delete_pending`: drop the
unverified verifications of the tenant and email (optionally restricted to
one verification type). -/
def EmailVerificationRepository.delete_pending (db : List EmailVerification)
    (t email : String) (vt : Option VerificationType) : List EmailVerification :=
  db.filter (fun v => !(v.tenant_id == t && v.email == email && !v.is_verified &&
    (match vt with
     | none => true
     | some ty => v.verification_type == ty)))

/-- Embedding of `generate_verification_code`:
`"".join(random.choices(string.digits, k=settings.verification_code_length))`
with the random draws supplied by `pick`. -/
def generate_verification_code (settings : Settings) (pick : Nat → Fin 10) :
    String :=
  String.mk ((List.range settings.verification_code_length).map
    (fun i => Char.ofNat (48 + (pick i).val)))

/-- Model of Python `str.strip()`: drop whitespace from both ends. -/
def pyStrip (s : String) : String :=
  String.mk (((s.data.dropWhile Char.isWhitespace).reverse.dropWhile
    Char.isWhitespace).reverse)

/-- Model of Python `str.lower()`: lower-case every character. -/
def pyLower (s : String) : String :=
  String.mk (s.data.map Char.toLower)

/-- Python's `a or b` on the nullable name column: `a` unless it is None or
empty. -/
def pyOrName (a b : Option String) : Option String :=
  match a with
  | none => b
  | some s => if s.isEmpty then b else some s

/-- Embedding of `SubscriptionManager.request_subscribe`.  Returns
`((success, verification_id), state)`; the message strings are not
modelled. -/
def SubscriptionManager.request_subscribe (settings : Settings) (st : SubDb)
    (tenant_id email name : String) (now : Nat) (pick : Nat → Fin 10)
    (freshId : Nat) : (Bool × Option Nat) × SubDb :=
  let email := pyLower (pyStrip email)
  let name := pyStrip name
  match SubscriberRepository.get_active_by_email st.subscribers tenant_id email with
  | some _ => ((false, none), st)
  | none =>
    let code := generate_verification_code settings pick
    let expires_at := now + 60 * settings.verification_expiry_minutes
    let vs := EmailVerificationRepository.delete_pending st.verifications
      tenant_id email none
    ((true, some freshId),
      ⟨st.subscribers,
       vs ++ [⟨freshId, tenant_id, email, some name, code,
         VerificationType.subscribe, false, 0, now, expires_at⟩]⟩)

/-- Embedding of `SubscriptionManager.verify_subscribe`.  Returns
`(success, state)`. -/
def SubscriptionManager.verify_subscribe (settings : Settings) (st : SubDb)
    (verification_id : Nat) (email code : String) (now : Nat)
    (token : String) (freshSubId : Nat) : Bool × SubDb :=
  let code := pyStrip code
  match EmailVerificationRepository.get_by_id_and_email st.verifications
      verification_id email with
  | none => (false, st)
  | some v =>
    if v.expires_at < now then (false, st)
    else if settings.max_verification_attempts ≤ v.attempts then (false, st)
    else if v.code ≠ code then
      (false, ⟨st.subscribers,
        updateFirst (fun w => w.id == verification_id && w.email == email)
          (fun w => { w with attempts := w.attempts + 1 }) st.verifications⟩)
    else
      let vs := updateFirst (fun w => w.id == verification_id && w.email == email)
        (fun w => { w with is_verified := true }) st.verifications
      match SubscriberRepository.get_by_email st.subscribers v.tenant_id email with
      | some _ =>
        (true, ⟨updateFirst
          (fun s => s.tenant_id == v.tenant_id && s.email == email)
          (fun s =>
            { s with
              is_active := true,
              name := pyOrName v.name s.name,
              unsubscribe_token := token,
              updated_at := now }) st.subscribers, vs⟩)
      | none =>
        (true, ⟨st.subscribers ++
          [⟨freshSubId, v.tenant_id, email, v.name, token, true, now, now⟩], vs⟩)

/-- Embedding of `SubscriptionManager.verify_unsubscribe`.  Returns
`(success, state)`. -/
def SubscriptionManager.verify_unsubscribe (settings : Settings) (st : SubDb)
    (verification_id : Nat) (email code : String) (now : Nat) : Bool × SubDb :=
  let code := pyStrip code
  match EmailVerificationRepository.get_unsubscribe_by_id_and_email
      st.verifications verification_id email with
  | none => (false, st)
  | some v =>
    if v.expires_at < now then (false, st)
    else if settings.max_verification_attempts ≤ v.attempts then (false, st)
    else if v.code ≠ code then
      (false, ⟨st.subscribers,
        updateFirst (fun w => w.id == verification_id && w.email == email &&
            w.verification_type == VerificationType.unsubscribe)
          (fun w => { w with attempts := w.attempts + 1 }) st.verifications⟩)
    else
      let vs := updateFirst (fun w => w.id == verification_id && w.email == email &&
          w.verification_type == VerificationType.unsubscribe)
        (fun w => { w with is_verified := true }) st.verifications
      match SubscriberRepository.get_active_by_email st.subscribers
          v.tenant_id email with
      | some _ =>
        (true, ⟨updateFirst
          (fun s => s.tenant_id == v.tenant_id && s.email == email && s.is_active)
          (fun s => { s with is_active := false, updated_at := now })
          st.subscribers, vs⟩)
      | none => (true, ⟨st.subscribers, vs⟩)

theorem charOfNat_digit_isDigit (d : Fin 10) :
    (Char.ofNat (48 + d.val)).isDigit = true := by
  fin_cases d <;> decide

/-- C7: the verification code is a short-lived numeric code.  The code is a
string of exactly `verification_code_length` decimal digits (default 6, and
the default expiry is 10 minutes); a successful `request_subscribe` stores
the verification with `expires_at = now + 60 * verification_expiry_minutes`
seconds; and `verify_subscribe` rejects every attempt made after
`expires_at` has passed, leaving the state unchanged. -/
theorem verification_code_short_lived :
    (defaultSettings.verification_code_length = 6 ∧
      defaultSettings.verification_expiry_minutes = 10) ∧
    (∀ (settings : Settings) (pick : Nat → Fin 10),
      (generate_verification_code settings pick).length =
        settings.verification_code_length ∧
      ∀ c ∈ (generate_verification_code settings pick).data, c.isDigit = true) ∧
    (∀ (settings : Settings) (st : SubDb) (tenant_id email name : String)
        (now : Nat) (pick : Nat → Fin 10) (freshId : Nat),
      (SubscriptionManager.request_subscribe settings st tenant_id email name
        now pick freshId).1.1 = true →
      ∃ vs, (SubscriptionManager.request_subscribe settings st tenant_id email
          name now pick freshId).2.verifications =
        vs ++ [⟨freshId, tenant_id, pyLower (pyStrip email), some (pyStrip name),
          generate_verification_code settings pick, VerificationType.subscribe,
          false, 0, now, now + 60 * settings.verification_expiry_minutes⟩]) ∧
    (∀ (settings : Settings) (st : SubDb) (vid : Nat) (email code : String)
        (now : Nat) (token : String) (freshSubId : Nat) (v : EmailVerification),
      EmailVerificationRepository.get_by_id_and_email st.verifications vid email =
        some v →
      v.expires_at < now →
      SubscriptionManager.verify_subscribe settings st vid email code now token
        freshSubId = (false, st)) := by
  refine ⟨⟨rfl, rfl⟩, ?_, ?_, ?_⟩
  · intro settings pick
    constructor
    · simp [generate_verification_code, String.length]
    · intro c hc
      simp only [generate_verification_code, List.mem_map, List.mem_range] at hc
      obtain ⟨i, _, rfl⟩ := hc
      exact charOfNat_digit_isDigit (pick i)
  · intro settings st tenant_id email name now pick freshId hsucc
    rcases hcase : SubscriberRepository.get_active_by_email st.subscribers
        tenant_id (pyLower (pyStrip email)) with _ | s0
    · refine ⟨EmailVerificationRepository.delete_pending st.verifications
        tenant_id (pyLower (pyStrip email)) none, ?_⟩
      simp [SubscriptionManager.request_subscribe, hcase]
    · simp [SubscriptionManager.request_subscribe, hcase] at hsucc
  · intro settings st vid email code now token freshSubId v hv hexp
    simp [SubscriptionManager.verify_subscribe, hv, hexp]

/-- Witness for C7: the default settings produce a 6-digit code, and a
concrete expired verification (expiry 100, attempt at 200) is rejected with
the state unchanged. -/
theorem verification_code_short_lived_witness :
    (generate_verification_code defaultSettings (fun _ => (3 : Fin 10))).length =
      defaultSettings.verification_code_length ∧
    SubscriptionManager.verify_subscribe defaultSettings
      ⟨[], [⟨7, "t", "a@x", none, "123456", VerificationType.subscribe,
        false, 0, 0, 100⟩]⟩ 7 "a@x" "123456" 200 "tok" 1 =
      (false, ⟨[], [⟨7, "t", "a@x", none, "123456", VerificationType.subscribe,
        false, 0, 0, 100⟩]⟩) :=
  ⟨(verification_code_short_lived.2.1 defaultSettings (fun _ => (3 : Fin 10))).1,
   verification_code_short_lived.2.2.2 defaultSettings
     ⟨[], [⟨7, "t", "a@x", none, "123456", VerificationType.subscribe,
       false, 0, 0, 100⟩]⟩ 7 "a@x" "123456" 200 "tok" 1
     ⟨7, "t", "a@x", none, "123456", VerificationType.subscribe, false, 0, 0, 100⟩
     (by decide) (by decide)⟩

/-- C8: subscriber uniqueness is preserved by re-subscription.  When a
Subscriber row for `(tenant_id, email)` already exists — active or not — a
successful `verify_subscribe` inserts no second row: the table keeps its
length and the first matching row is reactivated (`is_active = true`), its
name replaced when the verification carried one (Python `or` semantics) and
its unsubscribe token replaced.  A new row is inserted only when no row
exists for that `(tenant_id, email)`. -/
theorem verify_subscribe_reactivates (settings : Settings) (st : SubDb)
    (vid : Nat) (email code : String) (now : Nat) (token : String)
    (freshSubId : Nat) (v : EmailVerification)
    (hv : EmailVerificationRepository.get_by_id_and_email st.verifications
      vid email = some v)
    (hexp : ¬ v.expires_at < now)
    (hatt : v.attempts < settings.max_verification_attempts)
    (hcode : v.code = pyStrip code) :
    (SubscriptionManager.verify_subscribe settings st vid email code now token
      freshSubId).1 = true ∧
    (∀ s0, SubscriberRepository.get_by_email st.subscribers v.tenant_id email =
        some s0 →
      (SubscriptionManager.verify_subscribe settings st vid email code now token
        freshSubId).2.subscribers.length = st.subscribers.length ∧
      SubscriberRepository.get_by_email
        (SubscriptionManager.verify_subscribe settings st vid email code now
          token freshSubId).2.subscribers v.tenant_id email =
        some
          { s0 with
            is_active := true,
            name := pyOrName v.name s0.name,
            unsubscribe_token := token,
            updated_at := now }) ∧
    (SubscriberRepository.get_by_email st.subscribers v.tenant_id email = none →
      (SubscriptionManager.verify_subscribe settings st vid email code now token
        freshSubId).2.subscribers =
      st.subscribers ++
        [⟨freshSubId, v.tenant_id, email, v.name, token, true, now, now⟩]) := by
  have hif2 : ¬ (settings.max_verification_attempts ≤ v.attempts) :=
    not_le.mpr hatt
  have hif3 : ¬ (v.code ≠ pyStrip code) := by simp [hcode]
  rcases hs0 : SubscriberRepository.get_by_email st.subscribers v.tenant_id email
    with _ | s0
  · refine ⟨?_, ?_, ?_⟩
    · simp [SubscriptionManager.verify_subscribe, hv, hexp, hif2, hif3, hs0]
    · intro s1 h
      cases h
    · intro _
      simp [SubscriptionManager.verify_subscribe, hv, hexp, hif2, hif3, hs0]
  · refine ⟨?_, ?_, ?_⟩
    · simp [SubscriptionManager.verify_subscribe, hv, hexp, hif2, hif3, hs0]
    · intro s1 h
      injection h with h
      subst h
      have hsub : (SubscriptionManager.verify_subscribe settings st vid email code
          now token freshSubId).2.subscribers =
          updateFirst (fun s => s.tenant_id == v.tenant_id && s.email == email)
            (fun s =>
              { s with
                is_active := true,
                name := pyOrName v.name s.name,
                unsubscribe_token := token,
                updated_at := now }) st.subscribers := by
        simp [SubscriptionManager.verify_subscribe, hv, hexp, hif2, hif3, hs0]
      have hs0' : st.subscribers.find?
          (fun s => s.tenant_id == v.tenant_id && s.email == email) = some s0 := hs0
      obtain ⟨l1, l2, hsplit, hnone, hp, hupd⟩ :=
        find?_decomp (fun s => s.tenant_id == v.tenant_id && s.email == email)
          st.subscribers s0 hs0'
      constructor
      · rw [hsub, updateFirst_length]
      · rw [hsub, hupd]
        show List.find? _ _ = _
        rw [find?_append_first_none _ _ _ hnone]
        rw [List.find?_cons_of_pos _ (by simpa using hp)]
    · intro h
      cases h

/-- Concrete database for the C8 witness: one inactive subscriber row for
`("t", "a@x")` and one pending subscribe verification carrying a new name. -/
def w8Sub : Subscriber := ⟨1, "t", "a@x", some "Old", "k0", false, 0, 0⟩

def w8Ver : EmailVerification :=
  ⟨7, "t", "a@x", some "New", "123456", VerificationType.subscribe, false, 0, 0, 100⟩

def w8St : SubDb := ⟨[w8Sub], [w8Ver]⟩

/-- Witness for C8: re-subscribing the existing `("t", "a@x")` row succeeds,
keeps the table at one row and reactivates it with the new name and token. -/
theorem verify_subscribe_reactivates_witness :
    (SubscriptionManager.verify_subscribe defaultSettings w8St 7 "a@x" "123456"
      50 "k1" 2).1 = true ∧
    (SubscriptionManager.verify_subscribe defaultSettings w8St 7 "a@x" "123456"
      50 "k1" 2).2.subscribers.length = w8St.subscribers.length ∧
    SubscriberRepository.get_by_email
      (SubscriptionManager.verify_subscribe defaultSettings w8St 7 "a@x" "123456"
        50 "k1" 2).2.subscribers "t" "a@x" =
      some ⟨1, "t", "a@x", some "New", "k1", true, 0, 50⟩ := by
  have h := verify_subscribe_reactivates defaultSettings w8St 7 "a@x" "123456"
    50 "k1" 2 w8Ver rfl (by decide) (by decide) rfl
  have h2 := h.2.1 w8Sub rfl
  exact ⟨h.1, h2.1, h2.2⟩

/-- C9: verification attempt limiting with atomic failure, for both
`verify_subscribe` and `verify_unsubscribe`.  A wrong code increments the
found verification's `attempts` by exactly 1 and changes nothing else (the
list splits around that one row); once `attempts` has reached
`max_verification_attempts` every further attempt fails with the state
completely unchanged, whatever code is supplied; and no failing branch ever
sets `is_verified` or modifies any Subscriber row. -/
theorem verification_attempt_limiting (settings : Settings) (st : SubDb)
    (vid : Nat) (email code : String) (now : Nat) (token : String)
    (freshSubId : Nat) :
    (∀ v, EmailVerificationRepository.get_by_id_and_email st.verifications vid
        email = some v →
      ¬ v.expires_at < now →
      v.attempts < settings.max_verification_attempts →
      v.code ≠ pyStrip code →
      (SubscriptionManager.verify_subscribe settings st vid email code now token
        freshSubId).1 = false ∧
      (SubscriptionManager.verify_subscribe settings st vid email code now token
        freshSubId).2.subscribers = st.subscribers ∧
      ∃ l1 l2, st.verifications = l1 ++ v :: l2 ∧
        (SubscriptionManager.verify_subscribe settings st vid email code now
          token freshSubId).2.verifications =
          l1 ++ { v with attempts := v.attempts + 1 } :: l2) ∧
    (∀ v, EmailVerificationRepository.get_by_id_and_email st.verifications vid
        email = some v →
      ¬ v.expires_at < now →
      settings.max_verification_attempts ≤ v.attempts →
      SubscriptionManager.verify_subscribe settings st vid email code now token
        freshSubId = (false, st)) ∧
    ((SubscriptionManager.verify_subscribe settings st vid email code now token
        freshSubId).1 = false →
      (SubscriptionManager.verify_subscribe settings st vid email code now token
        freshSubId).2.subscribers = st.subscribers ∧
      (SubscriptionManager.verify_subscribe settings st vid email code now token
        freshSubId).2.verifications.map (fun w => w.is_verified) =
        st.verifications.map (fun w => w.is_verified)) ∧
    (∀ v, EmailVerificationRepository.get_unsubscribe_by_id_and_email
        st.verifications vid email = some v →
      ¬ v.expires_at < now →
      v.attempts < settings.max_verification_attempts →
      v.code ≠ pyStrip code →
      (SubscriptionManager.verify_unsubscribe settings st vid email code now).1 =
        false ∧
      (SubscriptionManager.verify_unsubscribe settings st vid email code
        now).2.subscribers = st.subscribers ∧
      ∃ l1 l2, st.verifications = l1 ++ v :: l2 ∧
        (SubscriptionManager.verify_unsubscribe settings st vid email code
          now).2.verifications =
          l1 ++ { v with attempts := v.attempts + 1 } :: l2) ∧
    (∀ v, EmailVerificationRepository.get_unsubscribe_by_id_and_email
        st.verifications vid email = some v →
      ¬ v.expires_at < now →
      settings.max_verification_attempts ≤ v.attempts →
      SubscriptionManager.verify_unsubscribe settings st vid email code now =
        (false, st)) ∧
    ((SubscriptionManager.verify_unsubscribe settings st vid email code now).1 =
        false →
      (SubscriptionManager.verify_unsubscribe settings st vid email code
        now).2.subscribers = st.subscribers ∧
      (SubscriptionManager.verify_unsubscribe settings st vid email code
        now).2.verifications.map (fun w => w.is_verified) =
        st.verifications.map (fun w => w.is_verified)) := by
  refine ⟨?_, ?_, ?_, ?_, ?_, ?_⟩
  · intro v hv hexp hatt hcode
    have hif2 : ¬ (settings.max_verification_attempts ≤ v.attempts) :=
      not_le.mpr hatt
    have hres : SubscriptionManager.verify_subscribe settings st vid email code
        now token freshSubId =
        (false, ⟨st.subscribers,
          updateFirst (fun w => w.id == vid && w.email == email)
            (fun w => { w with attempts := w.attempts + 1 }) st.verifications⟩) := by
      simp [SubscriptionManager.verify_subscribe, hv, hexp, hif2, hcode]
    have hv' : st.verifications.find? (fun w => w.id == vid && w.email == email) =
        some v := hv
    obtain ⟨l1, l2, hsplit, hnone, hp, hupd⟩ := find?_decomp _ _ _ hv'
    rw [hres]
    exact ⟨rfl, rfl, l1, l2, hsplit, hupd _⟩
  · intro v hv hexp hge
    simp [SubscriptionManager.verify_subscribe, hv, hexp, hge]
  · rcases hl : EmailVerificationRepository.get_by_id_and_email st.verifications
        vid email with _ | v
    · intro _
      simp [SubscriptionManager.verify_subscribe, hl]
    · by_cases hexp : v.expires_at < now
      · intro _
        simp [SubscriptionManager.verify_subscribe, hl, hexp]
      · by_cases hge : settings.max_verification_attempts ≤ v.attempts
        · intro _
          simp [SubscriptionManager.verify_subscribe, hl, hexp, hge]
        · by_cases hcode : v.code ≠ pyStrip code
          · intro _
            constructor
            · simp [SubscriptionManager.verify_subscribe, hl, hexp, hge, hcode]
            · have hres : (SubscriptionManager.verify_subscribe settings st vid
                  email code now token freshSubId).2.verifications =
                  updateFirst (fun w => w.id == vid && w.email == email)
                    (fun w => { w with attempts := w.attempts + 1 })
                    st.verifications := by
                simp [SubscriptionManager.verify_subscribe, hl, hexp, hge, hcode]
              rw [hres]
              exact updateFirst_map (fun w => w.id == vid && w.email == email)
                (fun w => { w with attempts := w.attempts + 1 })
                (fun w => w.is_verified) (fun x => rfl) st.verifications
          · intro hfail
            exfalso
            have hceq := not_not.mp hcode
            have htrue : (SubscriptionManager.verify_subscribe settings st vid
                email code now token freshSubId).1 = true := by
              rcases hs0 : SubscriberRepository.get_by_email st.subscribers
                  v.tenant_id email with _ | s0 <;>
                simp [SubscriptionManager.verify_subscribe, hl, hexp, hge, hceq, hs0]
            rw [htrue] at hfail
            cases hfail
  · intro v hv hexp hatt hcode
    have hif2 : ¬ (settings.max_verification_attempts ≤ v.attempts) :=
      not_le.mpr hatt
    have hres : SubscriptionManager.verify_unsubscribe settings st vid email code
        now =
        (false, ⟨st.subscribers,
          updateFirst (fun w => w.id == vid && w.email == email &&
              w.verification_type == VerificationType.unsubscribe)
            (fun w => { w with attempts := w.attempts + 1 }) st.verifications⟩) := by
      simp [SubscriptionManager.verify_unsubscribe, hv, hexp, hif2, hcode]
    have hv' : st.verifications.find? (fun w => w.id == vid && w.email == email &&
        w.verification_type == VerificationType.unsubscribe) = some v := hv
    obtain ⟨l1, l2, hsplit, hnone, hp, hupd⟩ := find?_decomp _ _ _ hv'
    rw [hres]
    exact ⟨rfl, rfl, l1, l2, hsplit, hupd _⟩
  · intro v hv hexp hge
    simp [SubscriptionManager.verify_unsubscribe, hv, hexp, hge]
  · rcases hl : EmailVerificationRepository.get_unsubscribe_by_id_and_email
        st.verifications vid email with _ | v
    · intro _
      simp [SubscriptionManager.verify_unsubscribe, hl]
    · by_cases hexp : v.expires_at < now
      · intro _
        simp [SubscriptionManager.verify_unsubscribe, hl, hexp]
      · by_cases hge : settings.max_verification_attempts ≤ v.attempts
        · intro _
          simp [SubscriptionManager.verify_unsubscribe, hl, hexp, hge]
        · by_cases hcode : v.code ≠ pyStrip code
          · intro _
            constructor
            · simp [SubscriptionManager.verify_unsubscribe, hl, hexp, hge, hcode]
            · have hres : (SubscriptionManager.verify_unsubscribe settings st vid
                  email code now).2.verifications =
                  updateFirst (fun w => w.id == vid && w.email == email &&
                      w.verification_type == VerificationType.unsubscribe)
                    (fun w => { w with attempts := w.attempts + 1 })
                    st.verifications := by
                simp [SubscriptionManager.verify_unsubscribe, hl, hexp, hge, hcode]
              rw [hres]
              exact updateFirst_map (fun w => w.id == vid && w.email == email &&
                  w.verification_type == VerificationType.unsubscribe)
                (fun w => { w with attempts := w.attempts + 1 })
                (fun w => w.is_verified) (fun x => rfl) st.verifications
          · intro hfail
            exfalso
            have hceq := not_not.mp hcode
            have htrue : (SubscriptionManager.verify_unsubscribe settings st vid
                email code now).1 = true := by
              rcases hs0 : SubscriberRepository.get_active_by_email st.subscribers
                  v.tenant_id email with _ | s0 <;>
                simp [SubscriptionManager.verify_unsubscribe, hl, hexp, hge, hceq, hs0]
            rw [htrue] at hfail
            cases hfail

/-- Concrete state for the C9 witness: one active subscriber, one pending
subscribe verification with no failed attempts, and one pending unsubscribe
verification that has exhausted its 5 attempts. -/
def w9V1 : EmailVerification :=
  ⟨7, "t", "a@x", none, "111111", VerificationType.subscribe, false, 0, 0, 100⟩

def w9V2 : EmailVerification :=
  ⟨8, "t", "a@x", none, "222222", VerificationType.unsubscribe, false, 5, 0, 100⟩

def w9St : SubDb := ⟨[⟨1, "t", "a@x", none, "k", true, 0, 0⟩], [w9V1, w9V2]⟩

/-- Witness for C9: submitting the wrong code `"000000"` to the subscribe
verification fails, leaves the subscribers untouched and bumps exactly that
verification's attempts from 0 to 1; and the exhausted unsubscribe
verification rejects even its correct code with the state unchanged. -/
theorem verification_attempt_limiting_witness :
    ((SubscriptionManager.verify_subscribe defaultSettings w9St 7 "a@x" "000000"
        50 "tok" 9).1 = false ∧
      (SubscriptionManager.verify_subscribe defaultSettings w9St 7 "a@x" "000000"
        50 "tok" 9).2.subscribers = w9St.subscribers ∧
      ∃ l1 l2, w9St.verifications = l1 ++ w9V1 :: l2 ∧
        (SubscriptionManager.verify_subscribe defaultSettings w9St 7 "a@x"
          "000000" 50 "tok" 9).2.verifications =
          l1 ++ { w9V1 with attempts := w9V1.attempts + 1 } :: l2) ∧
    SubscriptionManager.verify_unsubscribe defaultSettings w9St 8 "a@x" "222222"
      50 = (false, w9St) :=
  ⟨(verification_attempt_limiting defaultSettings w9St 7 "a@x" "000000" 50 "tok"
      9).1 w9V1 rfl (by decide) (by decide) (by decide),
   (verification_attempt_limiting defaultSettings w9St 8 "a@x" "222222" 50 "tok"
      9).2.2.2.2.1 w9V2 rfl (by decide) (by decide)⟩

end NewsLetter
